import Mathlib

/-!
# lc::Line (lckernel/cad/primitive/line.h)

A shallow embedding of the line primitive of the CAD kernel.

* The `accept` overload set and `dispatch` are translated from the bodies in
  `line.h`.  A call is recorded in an execution record that holds the state of
  the visitor object together with the ordered list of calls made so far.
* `move`, `copy`, `nearestPointOnPath`, `snapPoints` and `boundingBox` are only
  declared in `line.h`; their bodies live in a translation unit that is not
  part of the sources at hand, so they are modelled from the specification.

The scalar type `α` stands for the C++ `double`.
-/

namespace lc

/-! ## Geometry value types -/

namespace geo

/-- Immutable 2D point, `geo::Coordinate`. -/
structure Coordinate (α : Type) where
  x : α
  y : α
  deriving DecidableEq, Repr

/-- Directed pair of two coordinates, `geo::Vector`. -/
structure Vector (α : Type) where
  start : Coordinate α
  end_ : Coordinate α
  deriving DecidableEq, Repr

/-- Axis-aligned box given by its lower-left and upper-right corner, `geo::Area`. -/
structure Area (α : Type) where
  minP : Coordinate α
  maxP : Coordinate α
  deriving DecidableEq, Repr

end geo

/-! ## Entities and handles -/

/-- Opaque shared read-only handle to a layer (`Layer_CSPtr`). -/
structure Layer where
  ref : Nat
  deriving DecidableEq, Repr

/-- Opaque shared read-only handle to per-entity style overrides (`MetaInfo_CSPtr`). -/
structure MetaInfo where
  ref : Nat
  deriving DecidableEq, Repr

/-- Identity token of an entity. -/
abbrev ID := Nat

/-- The class `Line`: a `CADEntity` (identity token, layer, meta info) that is
also a `geo::Vector` (start and end). -/
structure Line (α : Type) where
  id : ID
  start : geo.Coordinate α
  end_ : geo.Coordinate α
  layer : Layer
  metaInfo : Option MetaInfo
  deriving DecidableEq, Repr

/-- An object of one of the classes that `line.h` only names through a typed
handle (`Circle_CSPtr`, ...).  The class bodies are not in `line.h`; an object
is identified by a reference number. -/
structure Ref where
  ref : Nat
  deriving DecidableEq, Repr

/-- The fourteen classes `X` that occur as a typed shared handle `X_CSPtr` in
the overload set of `Line::accept`. -/
inductive EntityKind
  | Coordinate | Line | Circle | Arc | Ellipse | Text | Spline | MText
  | Dimension | DimAligned | DimAngular | DimDiametric | DimLinear | DimRadial
  deriving DecidableEq, Repr

/-- The fifteen concrete operand kinds: `const geo::Vector&` and the fourteen
typed handles. -/
inductive OperandKind
  | Vector
  | Handle (k : EntityKind)
  deriving DecidableEq, Repr

/-- A concretely typed shared handle `X_CSPtr` together with the object it
points to.  `shared_from_this()` inside `Line` yields `Entity.Line self`. -/
inductive Entity (α : Type)
  | Coordinate (o : Ref)
  | Line (o : Line α)
  | Circle (o : Ref)
  | Arc (o : Ref)
  | Ellipse (o : Ref)
  | Text (o : Ref)
  | Spline (o : Ref)
  | MText (o : Ref)
  | Dimension (o : Ref)
  | DimAligned (o : Ref)
  | DimAngular (o : Ref)
  | DimDiametric (o : Ref)
  | DimLinear (o : Ref)
  | DimRadial (o : Ref)
  deriving DecidableEq, Repr

/-- The class of the object behind a typed handle. -/
def Entity.kind {α : Type} : Entity α → EntityKind
  | .Coordinate _ => .Coordinate
  | .Line _ => .Line
  | .Circle _ => .Circle
  | .Arc _ => .Arc
  | .Ellipse _ => .Ellipse
  | .Text _ => .Text
  | .Spline _ => .Spline
  | .MText _ => .MText
  | .Dimension _ => .Dimension
  | .DimAligned _ => .DimAligned
  | .DimAngular _ => .DimAngular
  | .DimDiametric _ => .DimDiametric
  | .DimLinear _ => .DimLinear
  | .DimRadial _ => .DimRadial

/-- An argument in operand position, tagged with its static type:
`const geo::Vector&`, one of the typed handles, or the abstract
`CADEntity_CSPtr` (whose pointee still has a concrete class at run time). -/
inductive Operand (α : Type)
  | Vector (o : geo.Vector α)
  | Typed (o : Entity α)
  | CADEntity (o : Entity α)
  deriving DecidableEq, Repr

/-- The static operand kind; the abstract handle has none of the fifteen. -/
def Operand.kind {α : Type} : Operand α → Option OperandKind
  | .Vector _ => some .Vector
  | .Typed o => some (.Handle o.kind)
  | .CADEntity _ => none

/-! ## Calls, visitors and the execution record -/

/-- A call made while an `accept` or `dispatch` body runs. -/
inductive Call (α : Type)
  /-- The call `ei.visit(first, second)` on an `EntityVisitor`. -/
  | visit (first : Entity α) (second : Operand α)
  /-- The call `receiver->accept(o, ei)` on an entity. -/
  | accept (receiver : Entity α) (o : Operand α)
  /-- The call `ed.visit(first)` on an `EntityDispatch`. -/
  | dispatchVisit (first : Entity α)
  deriving DecidableEq, Repr

/-- The `visit` overload a call lands in: the pair of static types of its two
arguments.  Calls that are not a two-argument `visit` have none. -/
def Call.overload {α : Type} : Call α → Option (EntityKind × OperandKind)
  | .visit first second => (second.kind).map (fun k => (first.kind, k))
  | .accept _ _ => none
  | .dispatchVisit _ => none

/-- True for the calls into the visitor. -/
def Call.isVisit {α : Type} : Call α → Bool
  | .visit _ _ => true
  | .accept _ _ => false
  | .dispatchVisit _ => true

/-- True for the calls to an `accept` overload. -/
def Call.isAccept {α : Type} : Call α → Bool
  | .visit _ _ => false
  | .accept _ _ => true
  | .dispatchVisit _ => false

/-- True for a call to the abstract-operand overload `accept(CADEntity_CSPtr, _)`. -/
def Call.isAbstractAccept {α : Type} : Call α → Bool
  | .accept _ (.CADEntity _) => true
  | _ => false

/-- An implementation of the interface `EntityVisitor` with object state `σ`:
the `visit` overload matrix, selected by the static types of both arguments. -/
structure EntityVisitor (α σ : Type) where
  visit : Entity α → Operand α → σ → σ

/-- An implementation of the interface `EntityDispatch` with object state `σ`. -/
structure EntityDispatch (α σ : Type) where
  visit : Entity α → σ → σ

/-- Execution record: the state of the visitor (or dispatcher) object and the
calls made so far, oldest first. -/
structure Exec (α σ : Type) where
  target : σ
  calls : List (Call α)

/-- Performs `ei.visit(first, second)`. -/
def EntityVisitor.call {α σ : Type} (ei : EntityVisitor α σ) (first : Entity α)
    (second : Operand α) (st : Exec α σ) : Exec α σ :=
  { target := ei.visit first second st.target
    calls := st.calls ++ [Call.visit first second] }

/-- Performs `ed.visit(first)`. -/
def EntityDispatch.call {α σ : Type} (ed : EntityDispatch α σ) (first : Entity α)
    (st : Exec α σ) : Exec α σ :=
  { target := ed.visit first st.target
    calls := st.calls ++ [Call.dispatchVisit first] }

/-- Records that `receiver->accept(o, ei)` is being called. -/
def Exec.enterAccept {α σ : Type} (st : Exec α σ) (receiver : Entity α)
    (o : Operand α) : Exec α σ :=
  { st with calls := st.calls ++ [Call.accept receiver o] }

/-! ## The accept overload set of Line (line.h, lines 110-160)

C++ selects an overload by the static type of the operand, so each overload is
a function of its own.  Inside `Line`, `shared_from_this()` is the typed handle
`Entity.Line self`. -/

/-- The overload `accept(const geo::Vector& o, EntityVisitor& ei)`:
`ei.visit(shared_from_this(), o)`. -/
def Line.accept_Vector {α σ : Type} (self : Line α) (o : geo.Vector α)
    (ei : EntityVisitor α σ) (st : Exec α σ) : Exec α σ :=
  ei.call (Entity.Line self) (Operand.Vector o) st

/-- The overload `accept(Coordinate_CSPtr o, EntityVisitor& ei)`:
`ei.visit(shared_from_this(), o)`. -/
def Line.accept_Coordinate {α σ : Type} (self : Line α) (o : Ref)
    (ei : EntityVisitor α σ) (st : Exec α σ) : Exec α σ :=
  ei.call (Entity.Line self) (Operand.Typed (Entity.Coordinate o)) st

/-- The overload `accept(Line_CSPtr o, EntityVisitor& ei)`:
`ei.visit(shared_from_this(), o)`. -/
def Line.accept_Line {α σ : Type} (self : Line α) (o : Line α)
    (ei : EntityVisitor α σ) (st : Exec α σ) : Exec α σ :=
  ei.call (Entity.Line self) (Operand.Typed (Entity.Line o)) st

/-- The overload `accept(Circle_CSPtr o, EntityVisitor& ei)`:
`ei.visit(shared_from_this(), o)`. -/
def Line.accept_Circle {α σ : Type} (self : Line α) (o : Ref)
    (ei : EntityVisitor α σ) (st : Exec α σ) : Exec α σ :=
  ei.call (Entity.Line self) (Operand.Typed (Entity.Circle o)) st

/-- The overload `accept(Arc_CSPtr o, EntityVisitor& ei)`:
`ei.visit(shared_from_this(), o)`. -/
def Line.accept_Arc {α σ : Type} (self : Line α) (o : Ref)
    (ei : EntityVisitor α σ) (st : Exec α σ) : Exec α σ :=
  ei.call (Entity.Line self) (Operand.Typed (Entity.Arc o)) st

/-- The overload `accept(Ellipse_CSPtr o, EntityVisitor& ei)`:
`ei.visit(shared_from_this(), o)`. -/
def Line.accept_Ellipse {α σ : Type} (self : Line α) (o : Ref)
    (ei : EntityVisitor α σ) (st : Exec α σ) : Exec α σ :=
  ei.call (Entity.Line self) (Operand.Typed (Entity.Ellipse o)) st

/-- The overload `accept(Text_CSPtr o, EntityVisitor& ei)`:
`ei.visit(shared_from_this(), o)`. -/
def Line.accept_Text {α σ : Type} (self : Line α) (o : Ref)
    (ei : EntityVisitor α σ) (st : Exec α σ) : Exec α σ :=
  ei.call (Entity.Line self) (Operand.Typed (Entity.Text o)) st

/-- The overload `accept(Spline_CSPtr o, EntityVisitor& ei)`:
`ei.visit(shared_from_this(), o)`. -/
def Line.accept_Spline {α σ : Type} (self : Line α) (o : Ref)
    (ei : EntityVisitor α σ) (st : Exec α σ) : Exec α σ :=
  ei.call (Entity.Line self) (Operand.Typed (Entity.Spline o)) st

/-- The overload `accept(MText_CSPtr o, EntityVisitor& ei)`:
`ei.visit(shared_from_this(), o)`. -/
def Line.accept_MText {α σ : Type} (self : Line α) (o : Ref)
    (ei : EntityVisitor α σ) (st : Exec α σ) : Exec α σ :=
  ei.call (Entity.Line self) (Operand.Typed (Entity.MText o)) st

/-- The overload `accept(Dimension_CSPtr o, EntityVisitor& ei)`:
`ei.visit(shared_from_this(), o)`. -/
def Line.accept_Dimension {α σ : Type} (self : Line α) (o : Ref)
    (ei : EntityVisitor α σ) (st : Exec α σ) : Exec α σ :=
  ei.call (Entity.Line self) (Operand.Typed (Entity.Dimension o)) st

/-- The overload `accept(DimAligned_CSPtr o, EntityVisitor& ei)`:
`ei.visit(shared_from_this(), o)`. -/
def Line.accept_DimAligned {α σ : Type} (self : Line α) (o : Ref)
    (ei : EntityVisitor α σ) (st : Exec α σ) : Exec α σ :=
  ei.call (Entity.Line self) (Operand.Typed (Entity.DimAligned o)) st

/-- The overload `accept(DimAngular_CSPtr o, EntityVisitor& ei)`:
`ei.visit(shared_from_this(), o)`. -/
def Line.accept_DimAngular {α σ : Type} (self : Line α) (o : Ref)
    (ei : EntityVisitor α σ) (st : Exec α σ) : Exec α σ :=
  ei.call (Entity.Line self) (Operand.Typed (Entity.DimAngular o)) st

/-- The overload `accept(DimDiametric_CSPtr o, EntityVisitor& ei)`:
`ei.visit(shared_from_this(), o)`. -/
def Line.accept_DimDiametric {α σ : Type} (self : Line α) (o : Ref)
    (ei : EntityVisitor α σ) (st : Exec α σ) : Exec α σ :=
  ei.call (Entity.Line self) (Operand.Typed (Entity.DimDiametric o)) st

/-- The overload `accept(DimLinear_CSPtr o, EntityVisitor& ei)`:
`ei.visit(shared_from_this(), o)`. -/
def Line.accept_DimLinear {α σ : Type} (self : Line α) (o : Ref)
    (ei : EntityVisitor α σ) (st : Exec α σ) : Exec α σ :=
  ei.call (Entity.Line self) (Operand.Typed (Entity.DimLinear o)) st

/-- The overload `accept(DimRadial_CSPtr o, EntityVisitor& ei)`:
`ei.visit(shared_from_this(), o)`. -/
def Line.accept_DimRadial {α σ : Type} (self : Line α) (o : Ref)
    (ei : EntityVisitor α σ) (st : Exec α σ) : Exec α σ :=
  ei.call (Entity.Line self) (Operand.Typed (Entity.DimRadial o)) st

/-- The type of a virtual call `receiver->accept(o, ei)`: the receiver, the
operand with its static type, the visitor and the execution record; `none` when
the call does not return within the allowed nesting depth. -/
abbrev VirtualAccept (α σ : Type) :=
  Entity α → Operand α → EntityVisitor α σ → Exec α σ → Option (Exec α σ)

/-- The overload `accept(CADEntity_CSPtr o, EntityVisitor& ei)`:
`o->accept(shared_from_this(), ei)`.  The call on `o` is virtual and is passed
in as `vcall`; its operand `shared_from_this()` has static type `Line_CSPtr`. -/
def Line.accept_CADEntity {α σ : Type} (vcall : VirtualAccept α σ) (self : Line α)
    (o : Entity α) (ei : EntityVisitor α σ) (st : Exec α σ) : Option (Exec α σ) :=
  vcall o (Operand.Typed (Entity.Line self)) ei
    (st.enterAccept o (Operand.Typed (Entity.Line self)))

/-- Overload resolution inside the class `Line`: the overload of `accept` is
selected by the static type of the operand. -/
def Line.acceptOverload {α σ : Type} (vcall : VirtualAccept α σ) (self : Line α)
    (o : Operand α) (ei : EntityVisitor α σ) (st : Exec α σ) : Option (Exec α σ) :=
  match o with
  | .Vector v => some (self.accept_Vector v ei st)
  | .Typed (.Coordinate p) => some (self.accept_Coordinate p ei st)
  | .Typed (.Line p) => some (self.accept_Line p ei st)
  | .Typed (.Circle p) => some (self.accept_Circle p ei st)
  | .Typed (.Arc p) => some (self.accept_Arc p ei st)
  | .Typed (.Ellipse p) => some (self.accept_Ellipse p ei st)
  | .Typed (.Text p) => some (self.accept_Text p ei st)
  | .Typed (.Spline p) => some (self.accept_Spline p ei st)
  | .Typed (.MText p) => some (self.accept_MText p ei st)
  | .Typed (.Dimension p) => some (self.accept_Dimension p ei st)
  | .Typed (.DimAligned p) => some (self.accept_DimAligned p ei st)
  | .Typed (.DimAngular p) => some (self.accept_DimAngular p ei st)
  | .Typed (.DimDiametric p) => some (self.accept_DimDiametric p ei st)
  | .Typed (.DimLinear p) => some (self.accept_DimLinear p ei st)
  | .Typed (.DimRadial p) => some (self.accept_DimRadial p ei st)
  | .CADEntity p => self.accept_CADEntity vcall p ei st

/-- Modelled from the spec: the `accept` overload set of the peer classes
(Circle, Arc, Ellipse, Text, Spline, the Dimension family, ...), whose class
bodies are not in `line.h`.  The spec calls them structurally identical peers of
Line, so every overload for a concrete operand is
`ei.visit(shared_from_this(), o)` and the overload for the abstract operand is
`o->accept(shared_from_this(), ei)`, with the peer as `shared_from_this()`. -/
def Peer.acceptOverload {α σ : Type} (vcall : VirtualAccept α σ) (self : Entity α)
    (o : Operand α) (ei : EntityVisitor α σ) (st : Exec α σ) : Option (Exec α σ) :=
  match o with
  | .Vector v => some (ei.call self (Operand.Vector v) st)
  | .Typed p => some (ei.call self (Operand.Typed p) st)
  | .CADEntity p =>
    vcall p (Operand.Typed self) ei (st.enterAccept p (Operand.Typed self))

/-- Modelled from the spec: the virtual member `accept` of the interface
`CADEntity` (cadentity.h is missing), taken to declare the overload set that
`Line` overrides with `virtual`.  A call `receiver->accept(o, ei)` selects the
class by virtual dispatch on the object behind `receiver` and the overload by
the static type of `o`.  `fuel` bounds the number of nested `accept` calls,
this one included. -/
def CADEntity.accept {α σ : Type} : Nat → VirtualAccept α σ
  | 0, _, _, _, _ => none
  | fuel + 1, .Line self, o, ei, st => Line.acceptOverload (CADEntity.accept fuel) self o ei st
  | fuel + 1, peer, o, ei, st => Peer.acceptOverload (CADEntity.accept fuel) peer o ei st

/-- The call `e.accept(o, ei)` on a line `e`, allowing `fuel` nested `accept`
calls, this one included. -/
def Line.accept {α σ : Type} (fuel : Nat) (self : Line α) (o : Operand α)
    (ei : EntityVisitor α σ) (st : Exec α σ) : Option (Exec α σ) :=
  CADEntity.accept fuel (Entity.Line self) o ei st

/-- The member `dispatch(EntityDispatch& ed)`: `ed.visit(shared_from_this())`. -/
def Line.dispatch {α σ : Type} (self : Line α) (ed : EntityDispatch α σ)
    (st : Exec α σ) : Exec α σ :=
  ed.call (Entity.Line self) st

/-- An execution record with no calls made yet. -/
def Exec.init {α σ : Type} (s : σ) : Exec α σ :=
  { target := s, calls := [] }

/-- The visitor that records every `visit` it receives, in order. -/
def recorder (α : Type) : EntityVisitor α (List (Entity α × Operand α)) :=
  { visit := fun first second log => log ++ [(first, second)] }

/-- A sample line from (0,0) to (10,0) with identity token 7. -/
def sampleLine : Line Int :=
  { id := 7, start := ⟨0, 0⟩, end_ := ⟨10, 0⟩, layer := ⟨0⟩, metaInfo := none }

/-! ## Geometry and identity of Line

`line.h` declares `move`, `copy`, `boundingBox`, `nearestPointOnPath` and
`snapPoints` without a body, and the headers of `geo::Coordinate`, `geo::Area`,
`ID` and `Snapable` are not among the sources.  The definitions of this section
follow the specification. -/

namespace geo

/-- Modelled from the spec: `operator+` of `geo::Coordinate` (geocoordinate.h is
missing); arithmetic is defined structurally, component by component. -/
def Coordinate.add {α : Type} [Add α] (a b : Coordinate α) : Coordinate α :=
  ⟨a.x + b.x, a.y + b.y⟩

/-- Modelled from the spec: `operator-` of `geo::Coordinate` (geocoordinate.h is
missing), component by component. -/
def Coordinate.sub {α : Type} [Sub α] (a b : Coordinate α) : Coordinate α :=
  ⟨a.x - b.x, a.y - b.y⟩

/-- Modelled from the spec: multiplication of a `geo::Coordinate` by a scalar
(geocoordinate.h is missing). -/
def Coordinate.scale {α : Type} [Mul α] (a : Coordinate α) (k : α) : Coordinate α :=
  ⟨a.x * k, a.y * k⟩

/-- Modelled from the spec: dot product of two `geo::Coordinate`s
(geocoordinate.h is missing). -/
def Coordinate.dot {α : Type} [Add α] [Mul α] (a b : Coordinate α) : α :=
  a.x * b.x + a.y * b.y

/-- Squared Euclidean distance between two coordinates. -/
def Coordinate.distSq {α : Type} [Add α] [Sub α] [Mul α] (a b : Coordinate α) : α :=
  (a.sub b).dot (a.sub b)

/-- Modelled from the spec: inclusive containment test of `geo::Area`
(geoarea.h is missing). -/
def Area.inArea {α : Type} [LE α] (a : Area α) (p : Coordinate α) : Prop :=
  a.minP.x ≤ p.x ∧ p.x ≤ a.maxP.x ∧ a.minP.y ≤ p.y ∧ p.y ≤ a.maxP.y

/-- Modelled from the spec: width of a `geo::Area` (geoarea.h is missing). -/
def Area.width {α : Type} [Sub α] (a : Area α) : α :=
  a.maxP.x - a.minP.x

/-- Modelled from the spec: height of a `geo::Area` (geoarea.h is missing). -/
def Area.height {α : Type} [Sub α] (a : Area α) : α :=
  a.maxP.y - a.minP.y

end geo

/-- Modelled from the spec: the source of identity tokens (the class `ID` is
missing).  A constructor draws a fresh token; tokens are handed out in
increasing order, `next` being the first one not yet used. -/
structure IDSource where
  next : ID
  deriving DecidableEq, Repr

/-- Draws a fresh identity token. -/
def IDSource.fresh (g : IDSource) : ID × IDSource :=
  (g.next, { next := g.next + 1 })

/-- The token `i` has been handed out by `g`. -/
def IDSource.issued (g : IDSource) (i : ID) : Prop :=
  i < g.next

instance IDSource.decidableIssued (g : IDSource) (i : ID) : Decidable (g.issued i) :=
  inferInstanceAs (Decidable (i < g.next))

/-- Modelled from the spec: the constructor
`Line(start, end, layer, metaInfo)`, whose body is missing; an entity created
via a constructor gets a fresh identity. -/
def Line.create {α : Type} (start end_ : geo.Coordinate α) (layer : Layer)
    (metaInfo : Option MetaInfo) (g : IDSource) : Line α × IDSource :=
  ({ id := g.fresh.1, start := start, end_ := end_, layer := layer, metaInfo := metaInfo },
    g.fresh.2)

/-- Modelled from the spec: `Line::move(offset)`, whose body is missing: the
entity translated by `offset`; preserves identity; same layer and meta. -/
def Line.move {α : Type} [Add α] (self : Line α) (offset : geo.Coordinate α) : Line α :=
  { id := self.id
    start := self.start.add offset
    end_ := self.end_.add offset
    layer := self.layer
    metaInfo := self.metaInfo }

/-- Modelled from the spec: `Line::copy(offset)`, whose body is missing: the
entity translated by `offset`; new identity. -/
def Line.copy {α : Type} [Add α] (self : Line α) (offset : geo.Coordinate α)
    (g : IDSource) : Line α × IDSource :=
  Line.create (self.start.add offset) (self.end_.add offset) self.layer self.metaInfo g

/-- Modelled from the spec: the copy-constructor `Line(other, sameID)`, whose
body is missing; the identity is either preserved or regenerated. -/
def Line.ofLine {α : Type} (other : Line α) (sameID : Bool) (g : IDSource) :
    Line α × IDSource :=
  if sameID then (other, g)
  else Line.create other.start other.end_ other.layer other.metaInfo g

/-- Modelled from the spec: `Line::rotate` and `Line::scale`, whose bodies are
missing: both preserve identity, layer and meta and replace the two line ends by
their images; the coordinate map (a rotation about a center, a component-wise
scaling about a center) is a parameter. -/
def Line.transform {α : Type} (self : Line α) (f : geo.Coordinate α → geo.Coordinate α) :
    Line α :=
  { id := self.id
    start := f self.start
    end_ := f self.end_
    layer := self.layer
    metaInfo := self.metaInfo }

/-- The token source after `n` more tokens have been drawn from it, by
constructions of entities of any class. -/
def IDSource.draw : Nat → IDSource → IDSource
  | 0, g => g
  | n + 1, g => IDSource.draw n g.fresh.2

/-- The ways a program comes to hold a line, following the lifecycle of the
spec: a constructor, the copy-constructor with its `sameID` flag, or one of the
transform operations applied to a line it already holds. -/
inductive LineExpr (α : Type)
  | create (start end_ : geo.Coordinate α) (layer : Layer) (metaInfo : Option MetaInfo)
  | ofLine (other : LineExpr α) (sameID : Bool)
  | move (self : LineExpr α) (offset : geo.Coordinate α)
  | copy (self : LineExpr α) (offset : geo.Coordinate α)
  | transform (self : LineExpr α) (f : geo.Coordinate α → geo.Coordinate α)

/-- Runs a construction against the token source: the line obtained and the
token source afterwards. -/
def LineExpr.eval {α : Type} [Add α] : LineExpr α → IDSource → Line α × IDSource
  | .create start end_ layer metaInfo, g => Line.create start end_ layer metaInfo g
  | .ofLine other sameID, g => Line.ofLine (other.eval g).1 sameID (other.eval g).2
  | .move self offset, g => ((self.eval g).1.move offset, (self.eval g).2)
  | .copy self offset, g => (self.eval g).1.copy offset (self.eval g).2
  | .transform self f, g => ((self.eval g).1.transform f, (self.eval g).2)

/-- Modelled from the spec: `Line::boundingBox()`, whose body is missing: the
axis-aligned box spanned by the two endpoints. -/
def Line.boundingBox {α : Type} [LinearOrder α] (self : Line α) : geo.Area α :=
  { minP := ⟨min self.start.x self.end_.x, min self.start.y self.end_.y⟩
    maxP := ⟨max self.start.x self.end_.x, max self.start.y self.end_.y⟩ }

/-- Clamps a line parameter to the segment range `[0, 1]`. -/
def clamp01 {α : Type} [LinearOrderedField α] (t : α) : α :=
  max 0 (min 1 t)

/-- The direction `end - start` of a line. -/
def Line.direction {α : Type} [Sub α] (self : Line α) : geo.Coordinate α :=
  self.end_.sub self.start

/-- The point `start + t * (end - start)` of the infinite line. -/
def Line.pointAt {α : Type} [LinearOrderedField α] (self : Line α) (t : α) :
    geo.Coordinate α :=
  self.start.add (self.direction.scale t)

/-- The line parameter of the orthogonal projection of `coord` onto the infinite
line through the endpoints; `0` for a degenerate line. -/
def Line.projectionParameter {α : Type} [LinearOrderedField α] (self : Line α)
    (coord : geo.Coordinate α) : α :=
  if self.direction.dot self.direction = 0 then 0
  else (coord.sub self.start).dot self.direction / self.direction.dot self.direction

/-- The foot of the perpendicular from `coord` on the infinite line. -/
def Line.perpendicularFoot {α : Type} [LinearOrderedField α] (self : Line α)
    (coord : geo.Coordinate α) : geo.Coordinate α :=
  self.pointAt (self.projectionParameter coord)

/-- Modelled from the spec: `Line::nearestPointOnPath(coord)`, whose body is
missing: the orthogonal projection of `coord` onto the infinite line, clamped to
the segment `[start, end]`; the single point of a degenerate line. -/
def Line.nearestPointOnPath {α : Type} [LinearOrderedField α] (self : Line α)
    (coord : geo.Coordinate α) : geo.Coordinate α :=
  self.pointAt (clamp01 (self.projectionParameter coord))

/-- The logical role of a snap candidate, in priority order. -/
inductive SnapRole
  | endpoint | midpoint | perpendicularFoot
  deriving DecidableEq, Repr

/-- Modelled from the spec: `EntityCoordinate` (entitycoordinate.h is missing):
a coordinate tagged with its provenance, the entity and the logical role. -/
structure EntityCoordinate (α : Type) where
  coordinate : geo.Coordinate α
  entity : ID
  role : SnapRole
  deriving DecidableEq, Repr

/-- The midpoint of a line. -/
def Line.midpoint {α : Type} [LinearOrderedField α] (self : Line α) : geo.Coordinate α :=
  (self.start.add self.end_).scale (1 / 2)

/-- The candidate set of a snap query on a line, in priority order: the two
line ends, the midpoint, and the foot of the perpendicular from `coord`. -/
def Line.snapCandidates {α : Type} [LinearOrderedField α] (self : Line α)
    (coord : geo.Coordinate α) : List (EntityCoordinate α) :=
  [ ⟨self.start, self.id, .endpoint⟩,
    ⟨self.end_, self.id, .endpoint⟩,
    ⟨self.midpoint, self.id, .midpoint⟩,
    ⟨self.perpendicularFoot coord, self.id, .perpendicularFoot⟩ ]

/-- The distance of a snap candidate to the query coordinate; `magnitude` is the
length function of `geo::Coordinate`. -/
def EntityCoordinate.distanceTo {α : Type} [Sub α] (magnitude : geo.Coordinate α → α)
    (coord : geo.Coordinate α) (p : EntityCoordinate α) : α :=
  magnitude (p.coordinate.sub coord)

/-- Modelled from the spec: `Line::snapPoints(coord, minDistanceToSnap,
maxNumberOfSnapPoints)`, whose body is missing: up to `maxNumberOfSnapPoints`
candidates, restricted to those within `minDistanceToSnap` of `coord`, ordered
by ascending distance to `coord`, ties kept in candidate priority order.  The
length function `magnitude` of `geo::Coordinate` (a floating-point square root)
is a parameter. -/
def Line.snapPoints {α : Type} [LinearOrderedField α] (magnitude : geo.Coordinate α → α)
    (self : Line α) (coord : geo.Coordinate α) (minDistanceToSnap : α)
    (maxNumberOfSnapPoints : Int) : List (EntityCoordinate α) :=
  (((self.snapCandidates coord).filter
      (fun p => decide (p.distanceTo magnitude coord ≤ minDistanceToSnap))).insertionSort
      (fun a b => a.distanceTo magnitude coord ≤ b.distanceTo magnitude coord)).take
    maxNumberOfSnapPoints.toNat

/-- The sample line over the rationals, from (0,0) to (10,0). -/
def sampleLineQ : Line ℚ :=
  { id := 7, start := ⟨0, 0⟩, end_ := ⟨10, 0⟩, layer := ⟨0⟩, metaInfo := none }

/-- A length function over the rationals used for evaluation: the taxicab length. -/
def taxicab (p : geo.Coordinate ℚ) : ℚ :=
  |p.x| + |p.y|

/-! ## Double dispatch: what `accept` and `dispatch` call -/

/-- The abstract-operand call on a line returns, with two nested `accept` calls
allowed, after one `accept` on the operand and one `visit` with the operand
first. -/
theorem Line.accept_abstract_eq {α σ : Type} (fuel : Nat) (e : Line α) (o : Entity α)
    (ei : EntityVisitor α σ) (st : Exec α σ) :
    e.accept (fuel + 2) (Operand.CADEntity o) ei st =
      some
        { target := ei.visit o (Operand.Typed (Entity.Line e)) st.target
          calls := st.calls ++
            [Call.accept o (Operand.Typed (Entity.Line e)),
             Call.visit o (Operand.Typed (Entity.Line e))] } := by
  cases o <;>
    simp [Line.accept, CADEntity.accept, Line.acceptOverload, Peer.acceptOverload,
      Line.accept_CADEntity, Line.accept_Line, EntityVisitor.call, Exec.enterAccept]

/-- C1: for every line `e`, visitor `ei` and operand `o` of one of the fifteen
concrete operand kinds, `e.accept(o, ei)` returns after exactly one call, the
call `ei.visit(e, o)` with the line itself first and the operand unchanged
second, landing in the overload for the pair (Line, kind of `o`); the list of
calls grows by that single entry, so there is no other `visit` and no
`accept`. -/
theorem C1_accept_concrete_makes_one_visit {α σ : Type} (fuel : Nat) (e : Line α)
    (o : Operand α) (k : OperandKind) (ei : EntityVisitor α σ) (st : Exec α σ)
    (hk : o.kind = some k) :
    e.accept (fuel + 1) o ei st =
        some
          { target := ei.visit (Entity.Line e) o st.target
            calls := st.calls ++ [Call.visit (Entity.Line e) o] } ∧
      (Call.visit (Entity.Line e) o).overload = some (EntityKind.Line, k) := by
  cases o with
  | Vector v =>
    simp only [Operand.kind, Option.some.injEq] at hk
    subst hk
    exact ⟨rfl, rfl⟩
  | Typed h =>
    simp only [Operand.kind, Option.some.injEq] at hk
    subst hk
    cases h <;> exact ⟨rfl, rfl⟩
  | CADEntity h =>
    simp [Operand.kind] at hk

/-- Witness of C1: the sample line accepts a Circle handle under the recording
visitor; one visit for the pair (Line, Circle) is recorded. -/
theorem C1_accept_concrete_makes_one_visit_witness :
    (Operand.Typed (Entity.Circle ⟨3⟩) : Operand Int).kind
        = some (OperandKind.Handle EntityKind.Circle) ∧
      (sampleLine.accept 1 (Operand.Typed (Entity.Circle ⟨3⟩)) (recorder Int) (Exec.init [])
          = some
              { target := [(Entity.Line sampleLine, Operand.Typed (Entity.Circle ⟨3⟩))]
                calls :=
                  [Call.visit (Entity.Line sampleLine) (Operand.Typed (Entity.Circle ⟨3⟩))] } ∧
        (Call.visit (Entity.Line sampleLine) (Operand.Typed (Entity.Circle ⟨3⟩))).overload
          = some (EntityKind.Line, OperandKind.Handle EntityKind.Circle)) :=
  ⟨rfl, C1_accept_concrete_makes_one_visit 0 sampleLine (Operand.Typed (Entity.Circle ⟨3⟩))
    (OperandKind.Handle EntityKind.Circle) (recorder Int) (Exec.init []) rfl⟩

/-- C2 as stated fails: the sample line accepts a Circle through the abstract
handle under the recording visitor.  The call returns with the single visit
`visit(circle, line)` recorded, which lands in the overload for the pair
(Circle, Line); no single visit in the overload for (Line, Circle) results. -/
theorem C2_counterexample_circle_operand :
    sampleLine.accept 2 (Operand.CADEntity (Entity.Circle ⟨3⟩)) (recorder Int) (Exec.init [])
        = some
            { target := [(Entity.Circle ⟨3⟩, Operand.Typed (Entity.Line sampleLine))]
              calls :=
                [Call.accept (Entity.Circle ⟨3⟩) (Operand.Typed (Entity.Line sampleLine)),
                 Call.visit (Entity.Circle ⟨3⟩) (Operand.Typed (Entity.Line sampleLine))] } ∧
      (Call.visit (Entity.Circle ⟨3⟩) (Operand.Typed (Entity.Line sampleLine))).overload
        = some (EntityKind.Circle, OperandKind.Handle EntityKind.Line) ∧
      ¬ ∃ (r : Exec Int (List (Entity Int × Operand Int))) (c : Call Int),
          sampleLine.accept 2 (Operand.CADEntity (Entity.Circle ⟨3⟩)) (recorder Int)
              (Exec.init []) = some r ∧
            r.calls.filter Call.isVisit = [c] ∧
            c.overload = some (EntityKind.Line, OperandKind.Handle EntityKind.Circle) := by
  refine ⟨rfl, rfl, ?_⟩
  rintro ⟨r, c, hr, hc, ho⟩
  have hrun : sampleLine.accept 2 (Operand.CADEntity (Entity.Circle ⟨3⟩)) (recorder Int)
      (Exec.init [])
        = some
            { target := [(Entity.Circle ⟨3⟩, Operand.Typed (Entity.Line sampleLine))]
              calls :=
                [Call.accept (Entity.Circle ⟨3⟩) (Operand.Typed (Entity.Line sampleLine)),
                 Call.visit (Entity.Circle ⟨3⟩) (Operand.Typed (Entity.Line sampleLine))] } :=
    rfl
  rw [hrun] at hr
  have hreq := Option.some.inj hr
  subst hreq
  have hceq : Call.visit (Entity.Circle ⟨3⟩) (Operand.Typed (Entity.Line sampleLine)) = c := by
    simpa [List.filter, Call.isVisit] using hc
  subst hceq
  simp [Call.overload, Operand.kind, Entity.kind] at ho

/-- C2 (amended): for every line `e`, visitor `ei` and entity `o` held through
the abstract handle, `e.accept(o, ei)` returns after calling `o->accept(e, ei)`
once, and the net effect is exactly one visit, `ei.visit(o, e)`: the overload
for the pair (concrete class of `o`, Line), with the operand `o` first and the
line `e` second. -/
theorem C2_accept_abstract_visits_operand_first {α σ : Type} (fuel : Nat) (e : Line α)
    (o : Entity α) (ei : EntityVisitor α σ) (st : Exec α σ) :
    e.accept (fuel + 2) (Operand.CADEntity o) ei st =
        some
          { target := ei.visit o (Operand.Typed (Entity.Line e)) st.target
            calls := st.calls ++
              [Call.accept o (Operand.Typed (Entity.Line e)),
               Call.visit o (Operand.Typed (Entity.Line e))] } ∧
      ([Call.accept o (Operand.Typed (Entity.Line e)),
        Call.visit o (Operand.Typed (Entity.Line e))].filter Call.isVisit
          = [Call.visit o (Operand.Typed (Entity.Line e))]) ∧
      (Call.visit o (Operand.Typed (Entity.Line e))).overload
        = some (o.kind, OperandKind.Handle EntityKind.Line) :=
  ⟨Line.accept_abstract_eq fuel e o ei st, rfl, rfl⟩

/-- C3: for every line `e` and dispatcher `ed`, `e.dispatch(ed)` makes exactly
one call, `ed.visit(e)` with the line itself as only argument; the list of calls
grows by that single entry, so there is no `accept` and no further `visit`. -/
theorem C3_dispatch_makes_one_visit {α σ : Type} (e : Line α) (ed : EntityDispatch α σ)
    (st : Exec α σ) :
    e.dispatch ed st =
      { target := ed.visit (Entity.Line e) st.target
        calls := st.calls ++ [Call.dispatchVisit (Entity.Line e)] } :=
  rfl

/-- C9: for lines `e` and `o` with `o` held through the abstract handle,
`e.accept(o, ei)` returns after exactly two accept hops: a nesting depth of one
is not enough, a depth of two or more gives the result.  The abstract-operand
overload on `e` visits nothing itself; it calls `o->accept(e, ei)` once with `e`
typed as a Line handle, and the result is the one of the Line-operand overload
of `o` run after that call is recorded, which makes the single visit.  The
calls made are one `accept` with a typed Line operand followed by one `visit`;
none of them enters the abstract-operand overload again. -/
theorem C9_accept_abstract_line_two_hops {α σ : Type} (fuel : Nat) (e o : Line α)
    (ei : EntityVisitor α σ) (st : Exec α σ) :
    e.accept 1 (Operand.CADEntity (Entity.Line o)) ei st = none ∧
      e.accept (fuel + 2) (Operand.CADEntity (Entity.Line o)) ei st
        = some (o.accept_Line e ei
            (st.enterAccept (Entity.Line o) (Operand.Typed (Entity.Line e)))) ∧
      (st.enterAccept (Entity.Line o) (Operand.Typed (Entity.Line e))).target = st.target ∧
      (o.accept_Line e ei
          (st.enterAccept (Entity.Line o) (Operand.Typed (Entity.Line e)))).calls
        = st.calls ++
            [Call.accept (Entity.Line o) (Operand.Typed (Entity.Line e)),
             Call.visit (Entity.Line o) (Operand.Typed (Entity.Line e))] ∧
      ([Call.accept (Entity.Line o) (Operand.Typed (Entity.Line e)),
        Call.visit (Entity.Line o) (Operand.Typed (Entity.Line e))].filter
          Call.isAccept).length = 1 ∧
      ([Call.accept (Entity.Line o) (Operand.Typed (Entity.Line e)),
        Call.visit (Entity.Line o) (Operand.Typed (Entity.Line e))].filter
          Call.isVisit).length = 1 ∧
      [Call.accept (Entity.Line o) (Operand.Typed (Entity.Line e)),
        Call.visit (Entity.Line o) (Operand.Typed (Entity.Line e))].filter
          Call.isAbstractAccept = [] := by
  refine ⟨rfl, rfl, rfl, ?_, rfl, rfl, rfl⟩
  simp [Line.accept_Line, EntityVisitor.call, Exec.enterAccept]

/-- C10: for lines `e` and `o`, the abstract route `e.accept(o, ei)` with `o`
behind a `CADEntity_CSPtr` returns with the visitor in the state of the single
call `ei.visit(o, e)` and with that visit as the only one recorded, operand
first and receiver second; the typed route with `o` a `Line_CSPtr` is the single
call `ei.visit(e, o)`.  The two routes hand the pair over in opposite argument
order. -/
theorem C10_abstract_and_typed_route_swap_arguments {α σ : Type} (fuel : Nat)
    (e o : Line α) (ei : EntityVisitor α σ) (st : Exec α σ) :
    (∃ r : Exec α σ,
        e.accept (fuel + 2) (Operand.CADEntity (Entity.Line o)) ei st = some r ∧
          r.target = ei.visit (Entity.Line o) (Operand.Typed (Entity.Line e)) st.target ∧
          r.calls.filter Call.isVisit
            = (ei.call (Entity.Line o) (Operand.Typed (Entity.Line e)) st).calls.filter
                Call.isVisit) ∧
      e.accept (fuel + 1) (Operand.Typed (Entity.Line o)) ei st
        = some (ei.call (Entity.Line e) (Operand.Typed (Entity.Line o)) st) ∧
      (ei.call (Entity.Line e) (Operand.Typed (Entity.Line o)) st).target
        = ei.visit (Entity.Line e) (Operand.Typed (Entity.Line o)) st.target := by
  refine ⟨⟨_, Line.accept_abstract_eq fuel e (Entity.Line o) ei st, rfl, ?_⟩, rfl, rfl⟩
  simp [EntityVisitor.call, List.filter_append, Call.isVisit, List.filter]

/-! ## Identity and translation -/

/-- Drawing `n` tokens advances the next token by `n`. -/
theorem IDSource.draw_next (n : Nat) (g : IDSource) :
    (IDSource.draw n g).next = g.next + n := by
  induction n generalizing g with
  | zero => rfl
  | succ n ih =>
    show (IDSource.draw n g.fresh.2).next = g.next + (n + 1)
    rw [ih]
    show g.next + 1 + n = g.next + (n + 1)
    rw [Nat.add_assoc, Nat.add_comm 1 n]

/-- A token handed out stays handed out when more tokens are drawn. -/
theorem IDSource.issued_draw (n : Nat) (g : IDSource) (i : ID) (h : g.issued i) :
    (IDSource.draw n g).issued i := by
  have hlt : i < g.next := h
  show i < (IDSource.draw n g).next
  rw [IDSource.draw_next]
  exact Nat.lt_of_lt_of_le hlt (Nat.le_add_right _ _)

/-- A line made by the constructor carries a token the source has handed out. -/
theorem Line.create_issued {α : Type} (start end_ : geo.Coordinate α) (layer : Layer)
    (metaInfo : Option MetaInfo) (g : IDSource) :
    (Line.create start end_ layer metaInfo g).2.issued
      (Line.create start end_ layer metaInfo g).1.id :=
  Nat.lt_succ_self g.next

/-- Every line a program comes to hold carries a token that the source has
handed out by then. -/
theorem LineExpr.eval_issued {α : Type} [Add α] (x : LineExpr α) (g : IDSource) :
    (x.eval g).2.issued (x.eval g).1.id := by
  induction x with
  | create start end_ layer metaInfo => exact Line.create_issued _ _ _ _ g
  | ofLine other sameID ih =>
    cases sameID with
    | true => exact ih
    | false => exact Line.create_issued _ _ _ _ _
  | move self offset ih => exact ih
  | copy self offset ih => exact Line.create_issued _ _ _ _ _
  | transform self f ih => exact ih

/-- A copy drawn from a source that has handed out the token of the original
carries another token. -/
theorem Line.copy_id_ne_of_issued {α : Type} [Add α] (L : Line α) (d : geo.Coordinate α)
    (g : IDSource) (hL : g.issued L.id) : (L.copy d g).1.id ≠ L.id := by
  have hlt : L.id < g.next := hL
  intro h
  have hid : g.next = L.id := h
  exact Nat.lt_irrefl L.id (hid ▸ hlt)

/-- C4: for every line `L` and every offset `d`, `L.move(d)` has the identity
token of `L`; and for every line a program comes to hold (built by a
constructor, the copy-constructor, `move`, `copy`, `rotate` or `scale`, from any
state of the token source) and every offset `d`, `copy(d)`, called at once or
after any number of further tokens have been drawn, returns a line whose
identity token differs from that of the original. -/
theorem C4_move_keeps_id_copy_renews_id {α : Type} [Add α] (L : Line α)
    (x : LineExpr α) (g : IDSource) (n : Nat) (d : geo.Coordinate α) :
    (L.move d).id = L.id ∧
      ((x.eval g).1.move d).id = (x.eval g).1.id ∧
      ((x.eval g).1.copy d (IDSource.draw n (x.eval g).2)).1.id ≠ (x.eval g).1.id :=
  ⟨rfl, rfl,
    Line.copy_id_ne_of_issued (x.eval g).1 d (IDSource.draw n (x.eval g).2)
      (IDSource.issued_draw n (x.eval g).2 (x.eval g).1.id (LineExpr.eval_issued x g))⟩

/-- C5: for every line `L` and offset `d`, `L.move(d)` starts at `L.start + d`
and ends at `L.end + d`, and `L.copy(d)` has the same start and end as
`L.move(d)`. -/
theorem C5_move_copy_translate_endpoints {α : Type} [Add α] (L : Line α)
    (d : geo.Coordinate α) (g : IDSource) :
    (L.move d).start = L.start.add d ∧ (L.move d).end_ = L.end_.add d ∧
      (L.copy d g).1.start = (L.move d).start ∧ (L.copy d g).1.end_ = (L.move d).end_ :=
  ⟨rfl, rfl, rfl, rfl⟩

/-! ## Bounding box -/

/-- C8: for every line `L`, degenerate or not, both endpoints lie inside
`L.boundingBox()` inclusively; the box is the one spanned by the endpoints, in
that every box holding both endpoints holds its two corners; and when
`start = end` the box has zero width and zero height, being that single
point. -/
theorem C8_boundingBox_spans_endpoints {α : Type} [LinearOrderedField α] (L : Line α) :
    L.boundingBox.inArea L.start ∧ L.boundingBox.inArea L.end_ ∧
      (∀ b : geo.Area α, b.inArea L.start → b.inArea L.end_ →
        b.inArea L.boundingBox.minP ∧ b.inArea L.boundingBox.maxP) ∧
      (L.start = L.end_ →
        L.boundingBox.width = 0 ∧ L.boundingBox.height = 0 ∧
          L.boundingBox.minP = L.start ∧ L.boundingBox.maxP = L.start) := by
  refine ⟨?_, ?_, ?_, ?_⟩
  · simp [geo.Area.inArea, Line.boundingBox]
  · simp [geo.Area.inArea, Line.boundingBox]
  · intro b hs he
    simp only [geo.Area.inArea, Line.boundingBox] at hs he ⊢
    obtain ⟨h1, h2, h3, h4⟩ := hs
    obtain ⟨h5, h6, h7, h8⟩ := he
    refine ⟨⟨le_min h1 h5, ?_, le_min h3 h7, ?_⟩, ⟨?_, max_le h2 h6, ?_, max_le h4 h8⟩⟩
    · exact (min_le_left _ _).trans h2
    · exact (min_le_left _ _).trans h4
    · exact h1.trans (le_max_left _ _)
    · exact h3.trans (le_max_left _ _)
  · intro h
    simp [geo.Area.width, geo.Area.height, Line.boundingBox, ← h]

/-- Witness of C8: a degenerate line at (3,4) over the rationals. -/
theorem C8_boundingBox_spans_endpoints_witness :
    (Line.mk 1 (⟨3, 4⟩ : geo.Coordinate ℚ) ⟨3, 4⟩ ⟨0⟩ none).boundingBox.width = 0 ∧
      (Line.mk 1 (⟨3, 4⟩ : geo.Coordinate ℚ) ⟨3, 4⟩ ⟨0⟩ none).boundingBox.height = 0 ∧
      (Line.mk 1 (⟨3, 4⟩ : geo.Coordinate ℚ) ⟨3, 4⟩ ⟨0⟩ none).boundingBox.minP = ⟨3, 4⟩ ∧
      (Line.mk 1 (⟨3, 4⟩ : geo.Coordinate ℚ) ⟨3, 4⟩ ⟨0⟩ none).boundingBox.maxP = ⟨3, 4⟩ :=
  (C8_boundingBox_spans_endpoints (Line.mk 1 (⟨3, 4⟩ : geo.Coordinate ℚ) ⟨3, 4⟩ ⟨0⟩ none)).2.2.2 rfl

/-! ## Nearest point on the path -/

/-- A line with distinct endpoints has a direction of positive squared length. -/
theorem Line.direction_dot_pos {α : Type} [LinearOrderedField α] (L : Line α)
    (h : L.start ≠ L.end_) : 0 < L.direction.dot L.direction := by
  have hne : L.end_.x - L.start.x ≠ 0 ∨ L.end_.y - L.start.y ≠ 0 := by
    by_contra hcon
    push_neg at hcon
    apply h
    cases hs : L.start with
    | mk sx sy =>
      cases he : L.end_ with
      | mk ex ey =>
        rw [hs, he] at hcon
        simp only at hcon
        rw [eq_of_sub_eq_zero hcon.1, eq_of_sub_eq_zero hcon.2]
  simp only [Line.direction, geo.Coordinate.dot, geo.Coordinate.sub]
  rcases hne with hx | hy
  · have := mul_self_pos.mpr hx
    have := mul_self_nonneg (L.end_.y - L.start.y)
    linarith
  · have := mul_self_pos.mpr hy
    have := mul_self_nonneg (L.end_.x - L.start.x)
    linarith

/-- The projection parameter solves the normal equation of the projection. -/
theorem Line.projectionParameter_mul {α : Type} [LinearOrderedField α] (L : Line α)
    (c : geo.Coordinate α) (h : L.start ≠ L.end_) :
    L.projectionParameter c * L.direction.dot L.direction
      = (c.sub L.start).dot L.direction := by
  have hpos := L.direction_dot_pos h
  unfold Line.projectionParameter
  rw [if_neg (ne_of_gt hpos)]
  field_simp

/-- The residual of `coord` against the point at parameter `t`, measured along
the direction. -/
theorem Line.residual_dot {α : Type} [LinearOrderedField α] (L : Line α)
    (c : geo.Coordinate α) (t : α) :
    (c.sub (L.pointAt t)).dot L.direction
      = (c.sub L.start).dot L.direction - t * L.direction.dot L.direction := by
  simp only [Line.pointAt, Line.direction, geo.Coordinate.dot, geo.Coordinate.sub,
    geo.Coordinate.add, geo.Coordinate.scale]
  ring

/-- Pythagoras along the line: the squared distance to the point at parameter
`u` is the squared distance to the foot plus the squared run along the line. -/
theorem Line.distSq_pointAt {α : Type} [LinearOrderedField α] (L : Line α)
    (c : geo.Coordinate α) (t u : α)
    (ht : t * L.direction.dot L.direction = (c.sub L.start).dot L.direction) :
    c.distSq (L.pointAt u)
      = c.distSq (L.pointAt t) + (u - t) * (u - t) * L.direction.dot L.direction := by
  simp only [Line.pointAt, Line.direction, geo.Coordinate.dot, geo.Coordinate.sub,
    geo.Coordinate.add, geo.Coordinate.scale, geo.Coordinate.distSq] at ht ⊢
  linear_combination (2 * (u - t)) * ht

/-- Clamping moves a parameter no further from `t` than any parameter of the
segment is. -/
theorem clamp01_nearest {α : Type} [LinearOrderedField α] (t u : α) (h0 : 0 ≤ u)
    (h1 : u ≤ 1) : (clamp01 t - t) * (clamp01 t - t) ≤ (u - t) * (u - t) := by
  unfold clamp01
  rcases le_total t 0 with ht | ht
  · rw [min_eq_right (ht.trans zero_le_one), max_eq_left ht]
    nlinarith
  · rcases le_total t 1 with ht1 | ht1
    · rw [min_eq_right ht1, max_eq_right ht]
      nlinarith [mul_self_nonneg (u - t)]
    · rw [min_eq_left ht1, max_eq_right zero_le_one]
      nlinarith

/-- The point at parameter 0 is the start. -/
theorem Line.pointAt_zero {α : Type} [LinearOrderedField α] (L : Line α) :
    L.pointAt 0 = L.start := by
  simp [Line.pointAt, geo.Coordinate.add, geo.Coordinate.scale]

/-- The point at parameter 1 is the end. -/
theorem Line.pointAt_one {α : Type} [LinearOrderedField α] (L : Line α) :
    L.pointAt 1 = L.end_ := by
  simp [Line.pointAt, Line.direction, geo.Coordinate.add, geo.Coordinate.scale,
    geo.Coordinate.sub]

/-- C6: for every line with `start ≠ end` and every query coordinate `c`:
the perpendicular foot is the orthogonal projection of `c` onto the infinite
line (the residual is perpendicular to the direction, and it is the only point
of the infinite line with that property); `nearestPointOnPath(c)` is that foot
when it lies on the segment, the start when the foot lies before the start and
the end when it lies beyond the end; no point of the segment is closer to `c`;
and on the line from (0,0) to (10,0) the queries (5,3), (-5,3) and (15,-3) give
(5,0), (0,0) and (10,0). -/
theorem C6_nearestPointOnPath_clamped_projection {α : Type} [LinearOrderedField α]
    (L : Line α) (c : geo.Coordinate α) (h : L.start ≠ L.end_) :
    (c.sub (L.perpendicularFoot c)).dot L.direction = 0 ∧
      (∀ t : α, (c.sub (L.pointAt t)).dot L.direction = 0 →
        L.pointAt t = L.perpendicularFoot c) ∧
      (0 ≤ L.projectionParameter c → L.projectionParameter c ≤ 1 →
        L.nearestPointOnPath c = L.perpendicularFoot c) ∧
      (L.projectionParameter c ≤ 0 → L.nearestPointOnPath c = L.start) ∧
      (1 ≤ L.projectionParameter c → L.nearestPointOnPath c = L.end_) ∧
      (∃ t : α, 0 ≤ t ∧ t ≤ 1 ∧ L.nearestPointOnPath c = L.pointAt t) ∧
      (∀ u : α, 0 ≤ u → u ≤ 1 →
        c.distSq (L.nearestPointOnPath c) ≤ c.distSq (L.pointAt u)) ∧
      (L.start = ⟨0, 0⟩ → L.end_ = ⟨10, 0⟩ →
        L.nearestPointOnPath ⟨5, 3⟩ = ⟨5, 0⟩ ∧
          L.nearestPointOnPath ⟨-5, 3⟩ = ⟨0, 0⟩ ∧
          L.nearestPointOnPath ⟨15, -3⟩ = ⟨10, 0⟩) := by
  have hpos := L.direction_dot_pos h
  have hmul := L.projectionParameter_mul c h
  refine ⟨?_, ?_, ?_, ?_, ?_, ?_, ?_, ?_⟩
  · rw [Line.perpendicularFoot, Line.residual_dot, hmul, sub_self]
  · intro t ht
    rw [Line.residual_dot, ← hmul, ← sub_mul] at ht
    have hzero : L.projectionParameter c - t = 0 :=
      (mul_eq_zero.mp ht).resolve_right (ne_of_gt hpos)
    rw [Line.perpendicularFoot, ← eq_of_sub_eq_zero hzero]
  · intro h0 h1
    rw [Line.nearestPointOnPath, Line.perpendicularFoot, clamp01, min_eq_right h1,
      max_eq_right h0]
  · intro h0
    rw [Line.nearestPointOnPath, clamp01, min_eq_right (h0.trans zero_le_one),
      max_eq_left h0, Line.pointAt_zero]
  · intro h1
    rw [Line.nearestPointOnPath, clamp01, min_eq_left h1, max_eq_right zero_le_one,
      Line.pointAt_one]
  · refine ⟨clamp01 (L.projectionParameter c), ?_, ?_, rfl⟩
    · exact le_max_left _ _
    · exact max_le zero_le_one (min_le_left _ _)
  · intro u h0 h1
    rw [Line.nearestPointOnPath, L.distSq_pointAt c _ u hmul,
      L.distSq_pointAt c _ (clamp01 (L.projectionParameter c)) hmul]
    have hc := clamp01_nearest (L.projectionParameter c) u h0 h1
    have := mul_le_mul_of_nonneg_right hc hpos.le
    linarith
  · intro hs he
    refine ⟨?_, ?_, ?_⟩ <;>
      · simp only [Line.nearestPointOnPath, Line.pointAt, Line.projectionParameter,
          Line.direction, clamp01, hs, he, geo.Coordinate.dot, geo.Coordinate.sub,
          geo.Coordinate.add, geo.Coordinate.scale]
        norm_num

/-- Witness of C6: the rational line from (0,0) to (10,0) and the query (5,3). -/
theorem C6_nearestPointOnPath_clamped_projection_witness :
    sampleLineQ.start ≠ sampleLineQ.end_ ∧
      sampleLineQ.nearestPointOnPath ⟨5, 3⟩ = ⟨5, 0⟩ ∧
      sampleLineQ.nearestPointOnPath ⟨-5, 3⟩ = ⟨0, 0⟩ ∧
      sampleLineQ.nearestPointOnPath ⟨15, -3⟩ = ⟨10, 0⟩ :=
  ⟨by decide,
    (C6_nearestPointOnPath_clamped_projection sampleLineQ ⟨5, 3⟩ (by decide)).2.2.2.2.2.2.2
      rfl rfl⟩

/-! ## Snap points -/

/-- C7: for every line, query coordinate `c`, `minDistanceToSnap` and
`maxNumberOfSnapPoints ≥ 0`, the list returned by `snapPoints` has at most
`maxNumberOfSnapPoints` entries, every entry is a snap candidate whose distance
to `c` is within `minDistanceToSnap`, and the entries are ordered by ascending
distance to `c`. -/
theorem C7_snapPoints_bounded_filtered_sorted {α : Type} [LinearOrderedField α]
    (magnitude : geo.Coordinate α → α) (L : Line α) (c : geo.Coordinate α)
    (minDistanceToSnap : α) (maxNumberOfSnapPoints : Int)
    (hmax : 0 ≤ maxNumberOfSnapPoints) :
    ((L.snapPoints magnitude c minDistanceToSnap maxNumberOfSnapPoints).length : Int)
        ≤ maxNumberOfSnapPoints ∧
      (∀ p ∈ L.snapPoints magnitude c minDistanceToSnap maxNumberOfSnapPoints,
        p ∈ L.snapCandidates c ∧ p.distanceTo magnitude c ≤ minDistanceToSnap) ∧
      (L.snapPoints magnitude c minDistanceToSnap maxNumberOfSnapPoints).Sorted
        (fun a b => a.distanceTo magnitude c ≤ b.distanceTo magnitude c) := by
  refine ⟨?_, ?_, ?_⟩
  · have hlen : (L.snapPoints magnitude c minDistanceToSnap maxNumberOfSnapPoints).length
        ≤ maxNumberOfSnapPoints.toNat := by
      unfold Line.snapPoints
      exact List.length_take_le _ _
    have hcast : ((maxNumberOfSnapPoints.toNat : Nat) : Int) = maxNumberOfSnapPoints :=
      Int.toNat_of_nonneg hmax
    omega
  · intro p hp
    unfold Line.snapPoints at hp
    have hsort := List.mem_of_mem_take hp
    rw [List.mem_insertionSort] at hsort
    rw [List.mem_filter] at hsort
    exact ⟨hsort.1, of_decide_eq_true hsort.2⟩
  · unfold Line.snapPoints
    have htotal : IsTotal (EntityCoordinate α)
        (fun a b => a.distanceTo magnitude c ≤ b.distanceTo magnitude c) :=
      ⟨fun a b => le_total _ _⟩
    have htrans : IsTrans (EntityCoordinate α)
        (fun a b => a.distanceTo magnitude c ≤ b.distanceTo magnitude c) :=
      ⟨fun _ _ _ hab hbc => le_trans hab hbc⟩
    have hsorted := List.sorted_insertionSort
      (fun a b : EntityCoordinate α => a.distanceTo magnitude c ≤ b.distanceTo magnitude c)
      ((L.snapCandidates c).filter
        (fun p => decide (p.distanceTo magnitude c ≤ minDistanceToSnap)))
    exact List.Pairwise.sublist (List.take_sublist _ _) hsorted

/-- Witness of C7: the rational line from (0,0) to (10,0), query point
(5, 1/10), snap distance 1, at most 2 points, under the taxicab length. -/
theorem C7_snapPoints_bounded_filtered_sorted_witness :
    (0 : Int) ≤ 2 ∧
      ((sampleLineQ.snapPoints taxicab ⟨5, 1 / 10⟩ 1 2).length : Int) ≤ 2 ∧
      (∀ p ∈ sampleLineQ.snapPoints taxicab ⟨5, 1 / 10⟩ 1 2,
        p ∈ sampleLineQ.snapCandidates ⟨5, 1 / 10⟩ ∧ p.distanceTo taxicab ⟨5, 1 / 10⟩ ≤ 1) ∧
      (sampleLineQ.snapPoints taxicab ⟨5, 1 / 10⟩ 1 2).Sorted
        (fun a b => a.distanceTo taxicab ⟨5, 1 / 10⟩ ≤ b.distanceTo taxicab ⟨5, 1 / 10⟩) :=
  ⟨by decide,
    C7_snapPoints_bounded_filtered_sorted taxicab sampleLineQ ⟨5, 1 / 10⟩ 1 2 (by decide)⟩

end lc
